import Mathlib

/-!
Verification of the TaskTrek backend's permission-aware hierarchical mutation
model against its JavaScript source.  Teams, Boards, Columns and Tasks are
embedded as Lean structures; the document store is a record of lists; each
controller function from the source is embedded as a pure state-passing
function returning an explicit result constructor mirroring the HTTP status
it sends.  Parts of the repository that the routes reference but whose
implementation files are absent (taskController, the membership authority)
are modelled from the specification and are marked as such in doc comments.
-/

namespace TaskTrek

/-- Roles on a Team or Board, as enumerated by the route schemas and the spec:
owner, admin, member, viewer. -/
inductive Role where
  | owner
  | admin
  | member
  | viewer
deriving DecidableEq

/-- Numeric rank of a role for the ordering owner > admin > member > viewer. -/
def roleRank : Role → Nat
  | .owner => 3
  | .admin => 2
  | .member => 1
  | .viewer => 0

/-- A role passes a minimum-role requirement when its rank is at least the
minimum's rank. -/
def roleAtLeast (r min : Role) : Bool := decide (roleRank min ≤ roleRank r)

/-- A Team document: owner principal id plus a membership list of
(principal id, role) pairs. -/
structure Team where
  id : Nat
  name : String
  owner : Nat
  members : List (Nat × Role)
deriving DecidableEq

/-- A Board document, with the fields read and written by
boardController.js: name, description, owning team id, createdBy principal
id, a board-scoped membership list, and the updatedAt timestamp used by the
list endpoint's sort. -/
structure Board where
  id : Nat
  name : String
  description : String
  team : Nat
  createdBy : Nat
  members : List (Nat × Role)
  updatedAt : Nat
deriving DecidableEq

/-- A Column document, from models/Column.js: title, owning board id,
integer position defaulting to 0. -/
structure Column where
  id : Nat
  title : String
  board : Nat
  position : Nat
deriving DecidableEq

/-- A Task document: title, owning column id, position within the column,
completed flag. -/
structure Task where
  id : Nat
  title : String
  column : Nat
  position : Nat
  completed : Bool
deriving DecidableEq

/-- A User document, with the fields read and written by
authController.js.  The password field holds the stored bcrypt hash. -/
structure User where
  id : Nat
  username : String
  email : String
  password : String
  name : String
  refreshToken : Option String
  resetPasswordToken : Option String
  resetPasswordExpire : Option Nat
deriving DecidableEq

/-- The document store: one list per collection. -/
structure DB where
  users : List User
  teams : List Team
  boards : List Board
  columns : List Column
  tasks : List Task
deriving DecidableEq

/-- Modelled from the spec: the Membership Authority
(resolveRole for a Team) is not implemented under src/ (teamController.js is
absent); per the spec, if the principal is the owner the role is owner, else
the principal is looked up in the membership list, else none. -/
def resolveTeamRole (p : Nat) (t : Team) : Option Role :=
  if p = t.owner then some .owner
  else (t.members.find? (fun m => m.1 == p)).map (fun m => m.2)

/-- Modelled from the spec: the Membership Authority (resolveRole for a
Board) looks the principal up in the board's own membership list, which is
independent of team membership; absent means none. -/
def resolveBoardRole (p : Nat) (b : Board) : Option Role :=
  (b.members.find? (fun m => m.1 == p)).map (fun m => m.2)

/-- Modelled from the spec: the Mutation Gate passes when a role resolved
and is at least the required minimum; an absent role is a denial. -/
def authorize (r : Option Role) (min : Role) : Bool :=
  match r with
  | none => false
  | some role => roleAtLeast role min

/-- Stand-in for jwt.sign: a token is determined by the secret tag and the
user id it is signed for. -/
def signToken (tag : String) (uid : Nat) : String :=
  tag ++ ":" ++ toString uid

/-- Result of createBoard, mirroring the HTTP statuses sent by the source:
400 when no team id is supplied, 404 when the team does not exist, 201 with
the created board. -/
inductive CreateBoardResult where
  | badRequest
  | teamNotFound
  | created (b : Board)
deriving DecidableEq

/-- Embedding of boardController.createBoard: take team or teamId from the
body, require one of them, require the team to exist, then persist a board
with the given name, description, team and createdBy := the caller.  The
fresh document id is passed in as newId.  No membership or role check
appears in the source. -/
def createBoard (uid : Nat) (name description : String)
    (team teamId : Option Nat) (newId : Nat) (db : DB) :
    CreateBoardResult × DB :=
  match team.orElse (fun _ => teamId) with
  | none => (.badRequest, db)
  | some tid =>
    match db.teams.find? (fun t => t.id == tid) with
    | none => (.teamNotFound, db)
    | some _ =>
      let b : Board :=
        { id := newId, name := name, description := description,
          team := tid, createdBy := uid, members := [], updatedAt := 0 }
      (.created b, { db with boards := db.boards ++ [b] })

/-- The comparison used by the boards list endpoint: updatedAt descending. -/
def boardLe (b1 b2 : Board) : Prop := b2.updatedAt ≤ b1.updatedAt

instance : DecidableRel boardLe := fun b1 b2 => Nat.decLe b2.updatedAt b1.updatedAt

instance : IsTotal Board boardLe :=
  ⟨fun b1 b2 => (Nat.le_total b2.updatedAt b1.updatedAt).elim Or.inl Or.inr⟩

instance : IsTrans Board boardLe :=
  ⟨fun _ _ _ h1 h2 => Nat.le_trans h2 h1⟩

/-- Embedding of boardController.getBoards: Board.find with the filter
createdBy = caller (the only disjunct of the $or in the source), sorted by
updatedAt descending. -/
def getBoards (uid : Nat) (db : DB) : List Board :=
  List.insertionSort boardLe (db.boards.filter (fun b => b.createdBy == uid))

/-- Result of getBoardById: 404, 403, or 200 with the board. -/
inductive GetBoardResult where
  | notFound
  | notAuthorized
  | ok (b : Board)
deriving DecidableEq

/-- Embedding of boardController.getBoardById: look the board up by id,
404 if absent; authorize exactly when the caller is the creator
(board.createdBy = caller) — the team-membership check in the source is
commented out. -/
def getBoardById (uid bid : Nat) (db : DB) : GetBoardResult :=
  match db.boards.find? (fun b => b.id == bid) with
  | none => .notFound
  | some b => if b.createdBy = uid then .ok b else .notAuthorized

/-- Result of updateBoard: 404, 403, or 200 with the updated board. -/
inductive UpdateBoardResult where
  | notFound
  | notAuthorized
  | ok (b : Board)
deriving DecidableEq

/-- Embedding of boardController.updateBoard: look the board up by id, 403
unless the caller is the creator, then set name when the supplied name is
truthy (a nonempty string) and description when it is supplied at all, and
save.  Save replaces the document with the board's id. -/
def updateBoard (uid bid : Nat) (name description : Option String) (db : DB) :
    UpdateBoardResult × DB :=
  match db.boards.find? (fun b => b.id == bid) with
  | none => (.notFound, db)
  | some b =>
    if b.createdBy ≠ uid then (.notAuthorized, db)
    else
      let newName := match name with
        | some n => if n = "" then b.name else n
        | none => b.name
      let b' : Board := { b with
        name := newName,
        description := description.getD b.description }
      (.ok b', { db with
        boards := db.boards.map (fun c => if c.id == bid then b' else c) })

/-- Result of deleteBoard: 404, 403, or 200 deleted. -/
inductive DeleteBoardResult where
  | notFound
  | notAuthorized
  | deleted
deriving DecidableEq

/-- Embedding of boardController.deleteBoard: look the board up by id, 403
unless the caller is the creator, then Board.deleteOne on that id.  The
source deletes only the board document: the columns and tasks collections
are not touched. -/
def deleteBoard (uid bid : Nat) (db : DB) : DeleteBoardResult × DB :=
  match db.boards.find? (fun b => b.id == bid) with
  | none => (.notFound, db)
  | some b =>
    if b.createdBy ≠ uid then (.notAuthorized, db)
    else (.deleted, { db with boards := db.boards.filter (fun c => !(c.id == bid)) })

/-- The hard-coded email of the special login route in
authController.loginGold. -/
def goldEmail : String := "ogunseitangold105@gmail.com"

/-- The hard-coded plaintext password literal the special login route
compares the request password against. -/
def goldPassword : String := "Goldexcool@001"

/-- Result of a login operation: 401 invalid credentials, or 200 with the
authenticated user id and the issued access and refresh tokens. -/
inductive LoginResult where
  | invalidCredentials
  | success (uid : Nat) (accessToken refreshToken : String)
deriving DecidableEq

/-- Replace the user document with the given user's id by the given user
(mongoose save on a fetched document). -/
def saveUser (u : User) (db : DB) : DB :=
  { db with users := db.users.map (fun v => if v.id == u.id then u else v) }

/-- Embedding of authController.loginGold: find the user with the fixed
email; 401 if absent; 401 unless the request password equals the hard-coded
plaintext literal (the stored password hash is never consulted); otherwise
sign both tokens for that user's id, store the refresh token, and succeed. -/
def loginGold (password : String) (db : DB) : LoginResult × DB :=
  match db.users.find? (fun u => u.email == goldEmail) with
  | none => (.invalidCredentials, db)
  | some u =>
    if password ≠ goldPassword then (.invalidCredentials, db)
    else
      let access := signToken "access" u.id
      let refresh := signToken "refresh" u.id
      (.success u.id access refresh,
       saveUser { u with refreshToken := some refresh } db)

/-- Result of signup, mirroring the statuses in the source: 400 when a
required field is missing, 400 when a user with the email or username
exists, 201 with the new user id and tokens. -/
inductive SignupResult where
  | missingFields
  | userExists
  | registered (uid : Nat) (accessToken refreshToken : String)
deriving DecidableEq

/-- Embedding of authController.signup, parametric in the bcrypt hash
function and in whether the welcome-email notifier fails.  The source wraps
sendWelcomeEmail in try/catch and continues on failure, so both branches of
the emailFails test return the same response and state. -/
def signup (hash : String → String) (newId : Nat) (emailFails : Bool)
    (username email password : String) (nameOpt : Option String) (db : DB) :
    SignupResult × DB :=
  if username = "" ∨ email = "" ∨ password = "" then (.missingFields, db)
  else
    match db.users.find? (fun u => u.email == email || u.username == username) with
    | some _ => (.userExists, db)
    | none =>
      let userName := match nameOpt with
        | some n => if n = "" then username else n
        | none => username
      let u : User :=
        { id := newId, username := username, email := email,
          password := hash password, name := userName,
          refreshToken := none, resetPasswordToken := none,
          resetPasswordExpire := none }
      let db' := { db with users := db.users ++ [u] }
      if emailFails then
        (.registered newId (signToken "access" newId) (signToken "refresh" newId), db')
      else
        (.registered newId (signToken "access" newId) (signToken "refresh" newId), db')

/-- Result of forgotPassword: 400 no email given, 404 no such user, 500
when the reset email could not be sent, 200 when it was sent. -/
inductive ForgotResult where
  | badRequest
  | userNotFound
  | emailFailed
  | emailSent
deriving DecidableEq

/-- Embedding of authController.forgotPassword, parametric in the sha256
token hash, the random reset token, the clock, and whether the reset-email
notifier fails.  The source first saves the hashed token and its expiry on
the user; when sending the email throws it clears both fields, saves again,
and responds 500 Email could not be sent. -/
def forgotPassword (hashTok : String → String) (resetToken : String)
    (now : Nat) (emailFails : Bool) (email : String) (db : DB) :
    ForgotResult × DB :=
  if email = "" then (.badRequest, db)
  else
    match db.users.find? (fun u => u.email == email) with
    | none => (.userNotFound, db)
    | some u =>
      let u1 : User := { u with
        resetPasswordToken := some (hashTok resetToken),
        resetPasswordExpire := some (now + 15 * 60 * 1000) }
      let db1 := saveUser u1 db
      if emailFails then
        let u2 : User := { u1 with
          resetPasswordToken := none, resetPasswordExpire := none }
        (.emailFailed, saveUser u2 db1)
      else
        (.emailSent, db1)

/-- Result of a create-child operation (column under a board, task under a
column): parent missing, gate denial, or created with the new id. -/
inductive CreateChildResult where
  | parentNotFound
  | forbidden
  | created (id : Nat)
deriving DecidableEq

/-- Modelled from the spec: boardController.createColumn is referenced by
the board routes but its implementation is not under src/.  Per the spec,
the create validates that the parent board exists (PARENT_NOT_FOUND
otherwise) and requires the Mutation Gate to grant create-child (minimum
role member) on that board before persisting the column. -/
def createColumn (uid bid : Nat) (title : String) (newId : Nat) (db : DB) :
    CreateChildResult × DB :=
  match db.boards.find? (fun b => b.id == bid) with
  | none => (.parentNotFound, db)
  | some b =>
    if authorize (resolveBoardRole uid b) .member then
      (.created newId,
       { db with columns := db.columns ++
           [{ id := newId, title := title, board := bid, position := 0 }] })
    else (.forbidden, db)

/-- Modelled from the spec: taskController.createTaskFromBody is referenced
by the task routes but taskController.js is not under src/.  Per the spec,
the create validates that the parent column exists (PARENT_NOT_FOUND
otherwise), resolves the owning board by walking column to board, and
requires the Mutation Gate to grant create-child (minimum role member) on
that board before persisting the task. -/
def createTask (uid cid : Nat) (title : String) (newId : Nat) (db : DB) :
    CreateChildResult × DB :=
  match db.columns.find? (fun c => c.id == cid) with
  | none => (.parentNotFound, db)
  | some c =>
    match db.boards.find? (fun b => b.id == c.board) with
    | none => (.parentNotFound, db)
    | some b =>
      if authorize (resolveBoardRole uid b) .member then
        (.created newId,
         { db with tasks := db.tasks ++
             [{ id := newId, title := title, column := cid,
                position := 0, completed := false }] })
      else (.forbidden, db)

/-- One step of the position-shift of moveTask with an explicit target
position p: the moved task goes to the target column at position p; every
other task already in the target column at a position at or after p is
shifted by one. -/
def bumpFrom (target p tid : Nat) (u : Task) : Task :=
  if u.id = tid then { u with column := target, position := p }
  else if u.column = target ∧ p ≤ u.position then { u with position := u.position + 1 }
  else u

/-- Largest position currently present in the target column (0 when the
column is empty). -/
def maxPos (target : Nat) (ts : List Task) : Nat :=
  ((ts.filter (fun u => u.column == target)).map (fun u => u.position)).foldr max 0

/-- Modelled from the spec: the state change of taskController.moveTask
(taskController.js is not under src/).  When a target position is given the
task is placed there and tasks at or after that index in the target column
shift by one; when omitted, the task is appended at max existing position
plus one. -/
def moveTaskAux (tid target : Nat) (tpos : Option Nat) (ts : List Task) : List Task :=
  match tpos with
  | some p => ts.map (bumpFrom target p tid)
  | none =>
    ts.map (fun u =>
      if u.id = tid then { u with column := target, position := maxPos target ts + 1 }
      else u)

/-- Modelled from the spec: taskController.moveTask validates that the task
exists and that the target column exists and belongs to a board on which the
principal's role is at least member, then reassigns the column reference and
recomputes positions per moveTaskAux.  Validation failure produces no state
change (none). -/
def moveTask (uid tid target : Nat) (tpos : Option Nat) (db : DB) : Option DB :=
  match db.tasks.find? (fun u => u.id == tid) with
  | none => none
  | some _ =>
    match db.columns.find? (fun c => c.id == target) with
    | none => none
    | some c =>
      match db.boards.find? (fun b => b.id == c.board) with
      | none => none
      | some b =>
        if authorize (resolveBoardRole uid b) .member then
          some { db with tasks := moveTaskAux tid target tpos db.tasks }
        else none

/-! Concrete fixtures used by witnesses and counterexamples. -/

/-- An empty document store. -/
def emptyDB : DB :=
  { users := [], teams := [], boards := [], columns := [], tasks := [] }

/-- Fixture: a board with one column and one task under it, created by
user 1. -/
def c1board : Board :=
  { id := 1, name := "B", description := "", team := 1, createdBy := 1,
    members := [], updatedAt := 0 }

def c1col : Column := { id := 5, title := "todo", board := 1, position := 0 }

def c1task : Task :=
  { id := 9, title := "t", column := 5, position := 0, completed := false }

def c1db : DB :=
  { users := [], teams := [], boards := [c1board], columns := [c1col],
    tasks := [c1task] }

/-- Fixture: a team owned by user 1 with an empty membership list, so user 2
resolves to no role at all on it. -/
def c2team : Team := { id := 1, name := "T", owner := 1, members := [] }

def c2db : DB :=
  { users := [], teams := [c2team], boards := [], columns := [], tasks := [] }

/-- The board createBoard persists for user 2 on team 1 with fresh id 5. -/
def c2board : Board :=
  { id := 5, name := "B", description := "", team := 1, createdBy := 2,
    members := [], updatedAt := 0 }

/-- Fixture: a board created by user 2, who also carries board role member,
with one column under it, used for the delete/create-task role claims. -/
def c3board : Board :=
  { id := 10, name := "B", description := "", team := 1, createdBy := 2,
    members := [(2, .member)], updatedAt := 0 }

def c3col : Column := { id := 20, title := "todo", board := 10, position := 0 }

def c3db : DB :=
  { users := [], teams := [], boards := [c3board], columns := [c3col],
    tasks := [] }

/-- Fixture: a board created by user 1 on which user 2 carries board role
admin. -/
def c5board : Board :=
  { id := 7, name := "B", description := "", team := 1, createdBy := 1,
    members := [(2, .admin)], updatedAt := 0 }

def c5db : DB :=
  { users := [], teams := [], boards := [c5board], columns := [], tasks := [] }

/-- Fixture: one registered user for the password-reset scenario. -/
def c8user : User :=
  { id := 1, username := "u", email := "u@example.com", password := "hash1",
    name := "u", refreshToken := none, resetPasswordToken := none,
    resetPasswordExpire := none }

def c8db : DB :=
  { users := [c8user], teams := [], boards := [], columns := [], tasks := [] }

/-- Fixture: the account with the hard-coded email, whose stored password
hash is some unrelated bcrypt digest. -/
def goldUser : User :=
  { id := 42, username := "gold", email := goldEmail,
    password := "unrelatedStoredHash", name := "Gold", refreshToken := none,
    resetPasswordToken := none, resetPasswordExpire := none }

def goldDB : DB :=
  { users := [goldUser], teams := [], boards := [], columns := [], tasks := [] }

/-- The board document a successful createBoard appends: name, description
and team from the request, createdBy the caller, fresh id. -/
def mkNewBoard (uid : Nat) (name description : String) (tid newId : Nat) : Board :=
  { id := newId, name := name, description := description, team := tid,
    createdBy := uid, members := [], updatedAt := 0 }

/-! Claim theorems. -/

/-- C1. Evaluation of the code at the failing input: deleting a board that
has one column and one task reports success and removes the board document,
but the column document still references the deleted board id and the task
still references that column, contradicting the claimed cascade. -/
theorem deleteBoard_leaves_columns_and_tasks :
    (deleteBoard 1 1 c1db).1 = .deleted ∧
    (deleteBoard 1 1 c1db).2.boards = [] ∧
    (deleteBoard 1 1 c1db).2.columns = [c1col] ∧
    (deleteBoard 1 1 c1db).2.tasks = [c1task] ∧
    c1col.board = 1 ∧ c1task.column = 5 :=
  ⟨rfl, rfl, rfl, rfl, rfl, rfl⟩

/-- C2 counterexample: user 2 has no role on team 1 (so the Mutation Gate
would deny create-child), yet createBoard succeeds and persists the board. -/
theorem createBoard_succeeds_without_team_role :
    resolveTeamRole 2 c2team = none ∧
    authorize (resolveTeamRole 2 c2team) .member = false ∧
    createBoard 2 "B" "" (some 1) none 5 c2db =
      (.created c2board, { c2db with boards := [c2board] }) :=
  ⟨rfl, rfl, rfl⟩

/-- C2 amended: createBoard persists a new Board for any authenticated
principal whenever the resolved team id exists; no membership or role check
is consulted and no Forbidden outcome exists. -/
theorem createBoard_requires_only_team_exists (db : DB) (uid : Nat)
    (name description : String) (tid newId : Nat) (t : Team)
    (hfind : db.teams.find? (fun x => x.id == tid) = some t) :
    createBoard uid name description (some tid) none newId db =
      (.created (mkNewBoard uid name description tid newId),
       { db with boards := db.boards ++ [mkNewBoard uid name description tid newId] }) := by
  unfold createBoard
  simp [Option.orElse, hfind, mkNewBoard]

theorem createBoard_requires_only_team_exists_witness :
    createBoard 2 "B" "" (some 1) none 5 c2db =
      (.created (mkNewBoard 2 "B" "" 1 5),
       { c2db with boards := c2db.boards ++ [mkNewBoard 2 "B" "" 1 5] }) :=
  createBoard_requires_only_team_exists c2db 2 "B" "" 1 5 c2team rfl

/-- C3 counterexample: user 2's resolved role on the board is exactly
member, yet deleteBoard by user 2 succeeds (user 2 is the creator), instead
of being rejected as Forbidden with INSUFFICIENT_ROLE. -/
theorem member_creator_can_delete_board :
    resolveBoardRole 2 c3board = some .member ∧
    (deleteBoard 2 10 c3db).1 = .deleted :=
  ⟨rfl, rfl⟩

/-- C3 amended: a principal whose board role is member can create a Task
(modelled from the spec, taskController.js being absent from src), but
deleteBoard decides by creatorship alone: it returns the generic
not-authorized rejection exactly when the caller is not the board's
createdBy, with no role consultation and no INSUFFICIENT_ROLE reason. -/
theorem deleteBoard_checks_creator_not_role (db : DB) (uid bid : Nat) (b : Board)
    (hfind : db.boards.find? (fun x => x.id == bid) = some b) :
    ((deleteBoard uid bid db).1 = .notAuthorized ↔ b.createdBy ≠ uid) ∧
    (∀ cid c bb title newId,
      db.columns.find? (fun x => x.id == cid) = some c →
      db.boards.find? (fun x => x.id == c.board) = some bb →
      resolveBoardRole uid bb = some .member →
      (createTask uid cid title newId db).1 = .created newId) := by
  constructor
  · unfold deleteBoard
    rw [hfind]
    by_cases h : b.createdBy = uid <;> simp [h]
  · intro cid c bb title newId h1 h2 h3
    simp [createTask, h1, h2, h3, authorize, roleAtLeast, roleRank]

theorem deleteBoard_checks_creator_not_role_witness :
    ((deleteBoard 6 10 c3db).1 = .notAuthorized) ∧
    ((createTask 2 20 "x" 30 c3db).1 = .created 30) :=
  ⟨(deleteBoard_checks_creator_not_role c3db 6 10 c3board rfl).1.mpr (by decide),
   (deleteBoard_checks_creator_not_role c3db 2 10 c3board rfl).2
     20 c3col c3board "x" 30 rfl rfl rfl⟩

/-- C4. The special login route authenticates as the account with the
hard-coded email whenever the request password equals the hard-coded
plaintext literal, issuing both tokens for that account's id; the stored
password hash of the account is unconstrained by the hypothesis, so it is
never compared. -/
theorem loginGold_backdoor (db : DB) (u : User)
    (hfind : db.users.find? (fun v => v.email == goldEmail) = some u) :
    (loginGold goldPassword db).1 =
      .success u.id (signToken "access" u.id) (signToken "refresh" u.id) := by
  unfold loginGold
  rw [hfind]
  simp

theorem loginGold_backdoor_witness :
    (loginGold goldPassword goldDB).1 =
      .success 42 (signToken "access" 42) (signToken "refresh" 42) :=
  loginGold_backdoor goldDB goldUser rfl

/-- C5 counterexample: user 2's resolved role on the board is admin, which
passes the viewer minimum, yet getBoardById rejects user 2 because only the
creator passes the source's check. -/
theorem admin_role_read_denied :
    resolveBoardRole 2 c5board = some .admin ∧
    authorize (resolveBoardRole 2 c5board) .viewer = true ∧
    getBoardById 2 7 c5db = .notAuthorized :=
  ⟨rfl, rfl, rfl⟩

/-- C5 amended: for an existing board, the read succeeds exactly when the
principal is the board's creator; board membership roles are not
consulted. -/
theorem getBoardById_creator_only (db : DB) (uid bid : Nat) (b : Board)
    (hfind : db.boards.find? (fun x => x.id == bid) = some b) :
    (getBoardById uid bid db = .ok b ↔ b.createdBy = uid) := by
  unfold getBoardById
  rw [hfind]
  by_cases h : b.createdBy = uid <;> simp [h]

theorem getBoardById_creator_only_witness :
    getBoardById 1 7 c5db = .ok c5board :=
  (getBoardById_creator_only c5db 1 7 c5board rfl).mpr rfl

/-- C6. Every create with a missing parent fails with the not-found outcome
and leaves the store unchanged: createBoard with a nonexistent team,
createColumn with a nonexistent board, createTask with a nonexistent
column. -/
theorem creates_fail_when_parent_missing (db : DB) (uid : Nat)
    (name description title1 title2 : String) (tid bid cid newId : Nat) :
    (db.teams.find? (fun t => t.id == tid) = none →
      createBoard uid name description (some tid) none newId db = (.teamNotFound, db)) ∧
    (db.boards.find? (fun b => b.id == bid) = none →
      createColumn uid bid title1 newId db = (.parentNotFound, db)) ∧
    (db.columns.find? (fun c => c.id == cid) = none →
      createTask uid cid title2 newId db = (.parentNotFound, db)) := by
  refine ⟨fun h => ?_, fun h => ?_, fun h => ?_⟩
  · unfold createBoard
    simp [Option.orElse, h]
  · unfold createColumn
    rw [h]
  · unfold createTask
    rw [h]

theorem creates_fail_when_parent_missing_witness :
    createBoard 1 "B" "" (some 3) none 2 emptyDB = (.teamNotFound, emptyDB) ∧
    createColumn 1 3 "c" 2 emptyDB = (.parentNotFound, emptyDB) ∧
    createTask 1 3 "t" 2 emptyDB = (.parentNotFound, emptyDB) := by
  have h := creates_fail_when_parent_missing emptyDB 1 "B" "" "c" "t" 3 3 3 2
  exact ⟨h.1 rfl, h.2.1 rfl, h.2.2 rfl⟩

/-- Fixture: a single board whose creator is user 1, for the update frame
witness. -/
def c7board : Board :=
  { id := 1, name := "old", description := "old", team := 3, createdBy := 1,
    members := [], updatedAt := 0 }

def c7db : DB :=
  { users := [], teams := [], boards := [c7board], columns := [], tasks := [] }

/-- C7. For every updateBoard call on a store whose board ids are distinct,
the id, team and createdBy of every board are unchanged, and the other
collections are untouched: only name and description can change. -/
theorem updateBoard_preserves_team_and_creator (uid bid : Nat)
    (name description : Option String) (db : DB)
    (hnodup : (db.boards.map (fun b => b.id)).Nodup) :
    ((updateBoard uid bid name description db).2).boards.map
        (fun b => (b.id, b.team, b.createdBy)) =
      db.boards.map (fun b => (b.id, b.team, b.createdBy)) ∧
    ((updateBoard uid bid name description db).2).users = db.users ∧
    ((updateBoard uid bid name description db).2).teams = db.teams ∧
    ((updateBoard uid bid name description db).2).columns = db.columns ∧
    ((updateBoard uid bid name description db).2).tasks = db.tasks := by
  unfold updateBoard
  cases hfind : db.boards.find? (fun b => b.id == bid) with
  | none => exact ⟨rfl, rfl, rfl, rfl, rfl⟩
  | some b =>
    dsimp only
    by_cases hcr : b.createdBy ≠ uid
    · rw [if_pos hcr]
      exact ⟨rfl, rfl, rfl, rfl, rfl⟩
    · rw [if_neg hcr]
      refine ⟨?_, rfl, rfl, rfl, rfl⟩
      have hbmem : b ∈ db.boards := List.mem_of_find?_eq_some hfind
      have hbid := List.find?_some hfind
      rw [List.map_map]
      apply List.map_congr_left
      intro c hc
      by_cases hcid : (c.id == bid) = true
      · have hidc : c.id = bid := by simpa using hcid
        have hidb : b.id = bid := by simpa using hbid
        have hceq : c = b :=
          List.inj_on_of_nodup_map hnodup hc hbmem (by show c.id = b.id; rw [hidc, hidb])
        subst hceq
        rw [Function.comp_apply, if_pos hcid]
      · rw [Function.comp_apply, if_neg hcid]

theorem updateBoard_preserves_team_and_creator_witness :
    ((updateBoard 1 1 (some "new") (some "newd") c7db).2).boards.map
        (fun b => (b.id, b.team, b.createdBy)) =
      c7db.boards.map (fun b => (b.id, b.team, b.createdBy)) :=
  (updateBoard_preserves_team_and_creator 1 1 (some "new") (some "newd") c7db
    (by decide)).1

/-- C8 counterexample: for the forgotPassword operation, a Notifier failure
does propagate to the caller's error channel: with the mailer failing the
result is the 500 email-failed outcome, while with the mailer succeeding it
is the 200 email-sent outcome, and the two differ. -/
theorem forgotPassword_propagates_notifier_failure :
    (forgotPassword (fun s => s) "tok" 0 true "u@example.com" c8db).1 = .emailFailed ∧
    (forgotPassword (fun s => s) "tok" 0 false "u@example.com" c8db).1 = .emailSent ∧
    ForgotResult.emailFailed ≠ ForgotResult.emailSent :=
  ⟨rfl, rfl, by decide⟩

/-- C8 amended: for the signup operation the source catches the welcome
email failure and continues, so both the response and the resulting store
are identical whether the Notifier fails or succeeds; forgotPassword, by
contrast, surfaces the failure as a 500 error and rolls the reset token
back. -/
theorem signup_ignores_notifier_failure (hash : String → String) (newId : Nat)
    (username email password : String) (nameOpt : Option String) (db : DB) :
    signup hash newId true username email password nameOpt db =
      signup hash newId false username email password nameOpt db := by
  unfold signup
  split
  · rfl
  · split <;> rfl

/-- C10. The boards list endpoint returns exactly the boards the caller
created — a board is in the result iff it is in the store with createdBy
equal to the caller — and the result is sorted by updatedAt descending;
boards of teams the caller merely belongs to are excluded since membership
never enters the filter. -/
theorem getBoards_exactly_created_sorted (uid : Nat) (db : DB) :
    (∀ b : Board, b ∈ getBoards uid db ↔ (b ∈ db.boards ∧ b.createdBy = uid)) ∧
    List.Sorted boardLe (getBoards uid db) := by
  constructor
  · intro b
    unfold getBoards
    rw [(List.perm_insertionSort boardLe _).mem_iff]
    simp [List.mem_filter]
  · exact List.sorted_insertionSort boardLe _

/-! Helper lemmas for the moveTask idempotence claim. -/

theorem bumpFrom_id (target p tid : Nat) (u : Task) :
    (bumpFrom target p tid u).id = u.id := by
  unfold bumpFrom
  split_ifs <;> rfl

theorem bumpFrom_column (target p tid : Nat) (u : Task) :
    (bumpFrom target p tid u).column = if u.id = tid then target else u.column := by
  unfold bumpFrom
  split_ifs <;> simp_all

theorem bumpFrom_pos (target p tid : Nat) (u : Task) :
    (bumpFrom target p tid u).position =
      if u.id = tid then p
      else if u.column = target then
        (if p ≤ u.position then u.position + 1 else u.position)
      else u.position := by
  unfold bumpFrom
  split_ifs <;> simp_all

theorem le_foldr_max (x : Nat) (l : List Nat) (h : x ∈ l) : x ≤ l.foldr max 0 := by
  induction l with
  | nil => cases h
  | cons a l ih =>
    rcases List.mem_cons.mp h with h1 | h2
    · subst h1
      exact Nat.le_max_left _ _
    · exact Nat.le_trans (ih h2) (Nat.le_max_right _ _)

theorem le_maxPos (target : Nat) (ts : List Task) (u : Task) (hu : u ∈ ts)
    (hc : u.column = target) : u.position ≤ maxPos target ts := by
  unfold maxPos
  apply le_foldr_max
  exact List.mem_map_of_mem _ (List.mem_filter.mpr ⟨hu, by simp [hc]⟩)

theorem moveTaskAux_length (tid target : Nat) (tpos : Option Nat) (ts : List Task) :
    (moveTaskAux tid target tpos ts).length = ts.length := by
  unfold moveTaskAux
  cases tpos <;> simp

theorem moveTaskAux_find_tid (tid target : Nat) (tpos : Option Nat) (ts : List Task)
    (h : (ts.find? (fun u => u.id == tid)).isSome) :
    ((moveTaskAux tid target tpos ts).find? (fun u => u.id == tid)).isSome := by
  rw [List.find?_isSome] at h ⊢
  obtain ⟨u, hu, hid⟩ := h
  unfold moveTaskAux
  cases tpos with
  | some p =>
    refine ⟨bumpFrom target p tid u, List.mem_map_of_mem _ hu, ?_⟩
    simpa [bumpFrom_id] using hid
  | none =>
    refine ⟨_, List.mem_map_of_mem _ hu, ?_⟩
    dsimp only
    split_ifs <;> exact hid

theorem moveTaskAux_none_getElem (tid target : Nat) (t0 : List Task) (i : Nat)
    (hi : i < (moveTaskAux tid target none t0).length) (hit : i < t0.length) :
    (moveTaskAux tid target none t0)[i] =
      if (t0[i]).id = tid then
        { t0[i] with column := target, position := maxPos target t0 + 1 }
      else t0[i] := by
  simp only [moveTaskAux, List.getElem_map]

theorem moveTaskAux_sq_id_col (tid target : Nat) (tpos : Option Nat) (t0 : List Task)
    (i : Nat) (hi1 : i < (moveTaskAux tid target tpos t0).length)
    (hi2 : i < (moveTaskAux tid target tpos (moveTaskAux tid target tpos t0)).length) :
    ((moveTaskAux tid target tpos (moveTaskAux tid target tpos t0))[i]).id =
      ((moveTaskAux tid target tpos t0)[i]).id ∧
    ((moveTaskAux tid target tpos (moveTaskAux tid target tpos t0))[i]).column =
      ((moveTaskAux tid target tpos t0)[i]).column := by
  cases tpos with
  | some p =>
    simp only [moveTaskAux, List.getElem_map]
    constructor
    · simp only [bumpFrom_id]
    · simp only [bumpFrom_column, bumpFrom_id]
      split_ifs <;> rfl
  | none =>
    simp only [moveTaskAux, List.getElem_map]
    split_ifs <;> simp_all

theorem moveTaskAux_sq_order (tid target : Nat) (tpos : Option Nat) (t0 : List Task)
    (i j : Nat)
    (hi1 : i < (moveTaskAux tid target tpos t0).length)
    (hj1 : j < (moveTaskAux tid target tpos t0).length)
    (hi2 : i < (moveTaskAux tid target tpos (moveTaskAux tid target tpos t0)).length)
    (hj2 : j < (moveTaskAux tid target tpos (moveTaskAux tid target tpos t0)).length)
    (hcol : ((moveTaskAux tid target tpos t0)[i]).column =
      ((moveTaskAux tid target tpos t0)[j]).column) :
    (((moveTaskAux tid target tpos (moveTaskAux tid target tpos t0))[i]).position <
       ((moveTaskAux tid target tpos (moveTaskAux tid target tpos t0))[j]).position ↔
     ((moveTaskAux tid target tpos t0)[i]).position <
       ((moveTaskAux tid target tpos t0)[j]).position) ∧
    (((moveTaskAux tid target tpos (moveTaskAux tid target tpos t0))[i]).position =
       ((moveTaskAux tid target tpos (moveTaskAux tid target tpos t0))[j]).position ↔
     ((moveTaskAux tid target tpos t0)[i]).position =
       ((moveTaskAux tid target tpos t0)[j]).position) := by
  cases tpos with
  | some p =>
    simp only [moveTaskAux, List.getElem_map] at hcol ⊢
    simp only [bumpFrom_pos, bumpFrom_id, bumpFrom_column] at hcol ⊢
    split_ifs at hcol ⊢ <;> omega
  | none =>
    have hit0 : i < t0.length := by simpa [moveTaskAux_length] using hi1
    have hjt0 : j < t0.length := by simpa [moveTaskAux_length] using hj1
    have hmemi : t0[i] ∈ t0 := List.getElem_mem _
    have hmemj : t0[j] ∈ t0 := List.getElem_mem _
    have hmem1i : (moveTaskAux tid target none t0)[i] ∈ moveTaskAux tid target none t0 :=
      List.getElem_mem _
    have hmem1j : (moveTaskAux tid target none t0)[j] ∈ moveTaskAux tid target none t0 :=
      List.getElem_mem _
    rw [moveTaskAux_none_getElem tid target (moveTaskAux tid target none t0) i hi2
        (by simpa [moveTaskAux_length] using hi2),
      moveTaskAux_none_getElem tid target (moveTaskAux tid target none t0) j hj2
        (by simpa [moveTaskAux_length] using hj2)]
    rw [moveTaskAux_none_getElem tid target t0 i hi1 hit0,
      moveTaskAux_none_getElem tid target t0 j hj1 hjt0] at hcol ⊢
    rw [moveTaskAux_none_getElem tid target t0 i hi1 hit0] at hmem1i
    rw [moveTaskAux_none_getElem tid target t0 j hj1 hjt0] at hmem1j
    by_cases hu : (t0[i]).id = tid <;> by_cases hw : (t0[j]).id = tid
    · simp [hu, hw] at hcol ⊢
    · simp only [hu, hw, if_true, if_false, ite_true, ite_false] at hcol hmem1j ⊢
      have hwcol : (t0[j]).column = target := by
        simpa using hcol.symm
      have hb0 : (t0[j]).position ≤ maxPos target t0 :=
        le_maxPos target t0 _ hmemj hwcol
      have hb1 : (t0[j]).position ≤ maxPos target (moveTaskAux tid target none t0) :=
        le_maxPos target _ _ hmem1j hwcol
      omega
    · simp only [hu, hw, if_true, if_false, ite_true, ite_false] at hcol hmem1i ⊢
      have hucol : (t0[i]).column = target := by
        simpa using hcol
      have hb0 : (t0[i]).position ≤ maxPos target t0 :=
        le_maxPos target t0 _ hmemi hucol
      have hb1 : (t0[i]).position ≤ maxPos target (moveTaskAux tid target none t0) :=
        le_maxPos target _ _ hmem1i hucol
      omega
    · simp [hu, hw]

/-- C9. moveTask is idempotent up to ordering: when a first application
succeeds, a second application with identical arguments also succeeds, and
relative to the state after the first application it changes no task's id or
column assignment and preserves both the strict order and the tie structure
of positions within every column — so the final per-column task ordering
after applying moveTask twice equals the ordering after applying it once. -/
theorem moveTask_idempotent_ordering (db : DB) (uid tid target : Nat)
    (tpos : Option Nat) (db1 : DB)
    (h1 : moveTask uid tid target tpos db = some db1) :
    moveTask uid tid target tpos db1 =
      some { db1 with tasks := moveTaskAux tid target tpos db1.tasks } ∧
    (moveTaskAux tid target tpos db1.tasks).length = db1.tasks.length ∧
    (∀ i, (hi1 : i < db1.tasks.length) →
      (hi2 : i < (moveTaskAux tid target tpos db1.tasks).length) →
      ((moveTaskAux tid target tpos db1.tasks)[i]).id = (db1.tasks[i]).id ∧
      ((moveTaskAux tid target tpos db1.tasks)[i]).column = (db1.tasks[i]).column) ∧
    (∀ i j, (hi1 : i < db1.tasks.length) → (hj1 : j < db1.tasks.length) →
      (hi2 : i < (moveTaskAux tid target tpos db1.tasks).length) →
      (hj2 : j < (moveTaskAux tid target tpos db1.tasks).length) →
      (db1.tasks[i]).column = (db1.tasks[j]).column →
      (((moveTaskAux tid target tpos db1.tasks)[i]).position <
         ((moveTaskAux tid target tpos db1.tasks)[j]).position ↔
       (db1.tasks[i]).position < (db1.tasks[j]).position) ∧
      (((moveTaskAux tid target tpos db1.tasks)[i]).position =
         ((moveTaskAux tid target tpos db1.tasks)[j]).position ↔
       (db1.tasks[i]).position = (db1.tasks[j]).position)) := by
  unfold moveTask at h1
  rcases hf : db.tasks.find? (fun u => u.id == tid) with _ | tfound
  · simp only [hf] at h1
    exact Option.noConfusion h1
  simp only [hf] at h1
  rcases hc : db.columns.find? (fun c => c.id == target) with _ | cfound
  · simp only [hc] at h1
    exact Option.noConfusion h1
  simp only [hc] at h1
  rcases hb : db.boards.find? (fun b => b.id == cfound.board) with _ | bfound
  · simp only [hb] at h1
    exact Option.noConfusion h1
  simp only [hb] at h1
  by_cases hauth : authorize (resolveBoardRole uid bfound) Role.member = true
  case neg =>
    rw [if_neg hauth] at h1
    exact Option.noConfusion h1
  rw [if_pos hauth] at h1
  have hdb1 : { db with tasks := moveTaskAux tid target tpos db.tasks } = db1 :=
    Option.some.inj h1
  subst hdb1
  refine ⟨?_, ?_, ?_, ?_⟩
  · have hs : ((moveTaskAux tid target tpos db.tasks).find?
        (fun u => u.id == tid)).isSome :=
      moveTaskAux_find_tid tid target tpos db.tasks (by rw [hf]; rfl)
    unfold moveTask
    rcases hf2 : (moveTaskAux tid target tpos db.tasks).find?
        (fun u => u.id == tid) with _ | x
    · rw [hf2] at hs
      simp at hs
    · dsimp only
      simp only [hf2, hc, hb]
      rw [if_pos hauth]
  · exact moveTaskAux_length tid target tpos (moveTaskAux tid target tpos db.tasks)
  · intro i hi1 hi2
    exact moveTaskAux_sq_id_col tid target tpos db.tasks i hi1 hi2
  · intro i j hi1 hj1 hi2 hj2 hcol
    exact moveTaskAux_sq_order tid target tpos db.tasks i j hi1 hj1 hi2 hj2 hcol

/-- Fixture: a board on which user 1 is a member, one column, and two tasks
in that column, for the moveTask idempotence witness. -/
def c9board : Board :=
  { id := 7, name := "B", description := "", team := 1, createdBy := 9,
    members := [(1, .member)], updatedAt := 0 }

def c9col : Column := { id := 5, title := "c", board := 7, position := 0 }

def c9db0 : DB :=
  { users := [], teams := [], boards := [c9board], columns := [c9col],
    tasks :=
      [{ id := 2, title := "t2", column := 5, position := 0, completed := false },
       { id := 3, title := "t3", column := 5, position := 1, completed := false }] }

/-- The state after moving task 2 to column 5 at position 1: task 2 goes to
position 1 and task 3 shifts to position 2. -/
def c9db1 : DB :=
  { users := [], teams := [], boards := [c9board], columns := [c9col],
    tasks :=
      [{ id := 2, title := "t2", column := 5, position := 1, completed := false },
       { id := 3, title := "t3", column := 5, position := 2, completed := false }] }

theorem moveTask_idempotent_ordering_witness :
    moveTask 1 2 5 (some 1) c9db1 =
      some { c9db1 with tasks := moveTaskAux 2 5 (some 1) c9db1.tasks } :=
  (moveTask_idempotent_ordering c9db0 1 2 5 (some 1) c9db1 (by decide)).1

end TaskTrek
